import Mathlib

/-!
# Verification of the travel-agent date-range permutation generator

Shallow embedding of `src/backend/main.py`. The file models:

* the `permutations` tool (`main.py`, lines 158-217): expansion of a flexible
  departure range and optional return range into concrete
  `{"departure_date": ..., "return_date": ...}` records, with trip-length
  filtering, and its `except Exception` → `{"error": str(e)}` behaviour;
* the three Amadeus tool adapters `search_locations`, `search_flights`,
  `search_hotels` (lines 67-156): on an upstream `ResponseError` they return
  `json.dumps({"error": str(e)})` instead of raising.

Modelling conventions:

* A calendar date is represented by its proleptic-Gregorian ordinal (a `Nat`),
  exactly the value of Python's `date.toordinal()`; `toordinal` below computes
  it.  `datetime` arithmetic (`timedelta(days=1)`, `(b - a).days`) becomes
  ordinal arithmetic.
* Python's `datetime` is bounded: `datetime.max` falls on 9999-12-31, ordinal
  `maxOrdinal`.  The enumeration loop
  `while current <= end: append(current); current += timedelta(days=1)`
  executes the increment once past the last appended day, so a range whose
  inclusive end is 9999-12-31 raises `OverflowError`, caught by the
  `except Exception` at line 216 and returned as the error object.
  `dateRangeLoop` models the loop with this bound (`none` = `OverflowError`);
  `dateRange` is the list the loop yields when it does not overflow.
* A date-string argument is a `DateStr`: either a non-empty string that parses
  under `"%Y-%m-%d"` (carrying the parsed ordinal), a non-empty string that
  does not parse, or the empty string (which is falsy in Python and also does
  not parse).
* The loop bodies format each day back to a string with `strftime("%Y-%m-%d")`;
  the pair loop then compares these strings with `dep < ret` and re-parses
  them with `strptime` (line 209) to compute the trip length.  For dates with
  four-digit years (ordinal ≥ `minOrdinal`, year ≥ 1000) the format/parse
  round trip is the identity and lexicographic string order is chronological
  order, so the model treats the comparison as `<` on ordinals and the
  re-parse as exact.  Below year 1000 platform `strftime` drops the zero
  padding while `strptime`'s `%Y` requires four digits, so the round trip can
  fail; theorems whose truth depends on the comparison/re-parse path therefore
  carry `minOrdinal ≤ _` bounds.
* `json.dumps` output is abstracted: the result of `permutations` is either
  `PermResult.ok pairs` (the JSON list of records) or `PermResult.error`
  (the JSON object `{"error": str(e)}`, message text abstracted).
-/

/-- Gregorian leap-year test, as in Python's `calendar.isleap`. -/
def isLeap (y : Nat) : Bool :=
  y % 4 == 0 && (y % 100 != 0 || y % 400 == 0)

/-- Length of month `m` (1-12) of year `y`. -/
def daysInMonth (y m : Nat) : Nat :=
  if m = 2 then (if isLeap y then 29 else 28)
  else if m = 4 ∨ m = 6 ∨ m = 9 ∨ m = 11 then 30
  else 31

/-- Days in year `y` before the first day of month `m`. -/
def daysBeforeMonth (y m : Nat) : Nat :=
  ((List.range (m - 1)).map fun i => daysInMonth y (i + 1)).sum

/-- Proleptic-Gregorian ordinal of the date `y-m-d`, the value of Python's
`date(y, m, d).toordinal()` (day 1 is 0001-01-01). -/
def toordinal (y m d : Nat) : Nat :=
  365 * (y - 1) + (y - 1) / 4 - (y - 1) / 100 + (y - 1) / 400
    + daysBeforeMonth y m + d

/-- Ordinal of 9999-12-31, the date of Python's `datetime.max` (3652059):
incrementing a `datetime` on this day by one day raises `OverflowError`. -/
def maxOrdinal : Nat := toordinal 9999 12 31

/-- Ordinal of 1000-01-01 (364878), the first date with a four-digit year:
from here on the `strftime("%Y-%m-%d")`/`strptime` round trip is the identity
and string order on the formatted dates is chronological order. -/
def minOrdinal : Nat := toordinal 1000 1 1

/-- A `YYYY-MM-DD` date-string argument as the Python function sees it:
`valid d` is a non-empty string parsed by `datetime.strptime(_, "%Y-%m-%d")`
to the date of ordinal `d`; `malformed` is a non-empty string on which
`strptime` raises `ValueError`; `empty` is the empty string `""` (falsy, and
`strptime` also raises on it). -/
inductive DateStr where
  | valid (ord : Nat)
  | malformed
  | empty
deriving DecidableEq, Repr

/-- `datetime.strptime(s, "%Y-%m-%d")`, as the date's ordinal; `none` models a
raised `ValueError`. -/
def DateStr.strptime : DateStr → Option Nat
  | .valid d => some d
  | .malformed => none
  | .empty => none

/-- Python truthiness of an `Optional[str]` argument: `None` and `""` are
falsy, every non-empty string is truthy. -/
def truthy : Option DateStr → Bool
  | none => false
  | some .empty => false
  | some _ => true

/-- The list of day ordinals from `start` to `e` inclusive, ascending (empty
when `start > e`): what the enumeration loop accumulates when it does not
overflow. -/
def dateRange (start e : Nat) : List Nat :=
  (List.range (e + 1 - start)).map (· + start)

/-- The enumeration loop
`current = start; while current <= end: append(current); current += timedelta(days=1)`
with Python's `datetime` bound: the increment also runs after the last day is
appended, so when the loop runs and its inclusive end reaches `datetime.max`'s
date the increment raises `OverflowError` (modelled as `none`); otherwise the
ascending inclusive list. -/
def dateRangeLoop (start e : Nat) : Option (List Nat) :=
  if start ≤ e ∧ maxOrdinal ≤ e then none
  else some (dateRange start e)

/-- One record of the `perms` list: `{"departure_date": dep}` or
`{"departure_date": dep, "return_date": ret}` (dates as ordinals). -/
structure DatePair where
  departure_date : Nat
  return_date : Option Nat
deriving DecidableEq, Repr

/-- The JSON string returned by the `permutations` tool: `ok pairs` is
`json.dumps(perms)`, `error` is `json.dumps({"error": str(e)})` (the message
text is abstracted). -/
inductive PermResult where
  | ok (pairs : List DatePair)
  | error
deriving DecidableEq, Repr

/-- The `permutations` tool (`main.py`, lines 158-217).  Parses the departure
bounds and runs the departure enumeration loop; if *both* return bounds are
truthy it parses them and runs the return loop (otherwise `returns = []`);
then for each departure: if `returns` is non-empty, keeps each return day with
`dep < ret` (string order = ordinal order for four-digit years) and
`min_days <= (ret - dep).days <= max_days` (the re-parse at line 209, exact
for four-digit years), else emits the one-way record.  Any raised
`ValueError`/`OverflowError` is caught by the `except Exception` at line 216
and reported as `PermResult.error`. -/
def permutations (departure_date_start departure_date_end : DateStr)
    (return_date_start return_date_end : Option DateStr := none)
    (min_days : Int := 1) (max_days : Int := 7) : PermResult :=
  match departure_date_start.strptime with
  | none => .error
  | some start =>
    match departure_date_end.strptime with
    | none => .error
    | some dEnd =>
      match dateRangeLoop start dEnd with
      | none => .error
      | some departures =>
        match
          (if truthy return_date_start && truthy return_date_end then
            match (return_date_start.getD .empty).strptime with
            | none => none
            | some retStart =>
              match (return_date_end.getD .empty).strptime with
              | none => none
              | some retEnd => dateRangeLoop retStart retEnd
          else some ([] : List Nat)) with
        | none => .error
        | some returns =>
          .ok (departures.flatMap fun dep =>
            if returns.isEmpty then [{ departure_date := dep, return_date := none }]
            else returns.filterMap fun ret =>
              if dep < ret then
                let trip_days : Int := (ret : Int) - (dep : Int)
                if min_days ≤ trip_days ∧ trip_days ≤ max_days then
                  some { departure_date := dep, return_date := some ret }
                else none
              else none)

/-- The strict "departure-major, return-minor" order on emitted records:
earlier departure first, and for equal departures earlier return first. -/
def depMajorRetMinor (p q : DatePair) : Prop :=
  p.departure_date < q.departure_date ∨
    (p.departure_date = q.departure_date ∧ p.return_date.getD 0 < q.return_date.getD 0)

theorem mem_dateRange {s e d : Nat} : d ∈ dateRange s e ↔ s ≤ d ∧ d ≤ e := by
  simp only [dateRange, List.mem_map, List.mem_range]
  constructor
  · rintro ⟨x, hx, rfl⟩; omega
  · rintro ⟨h1, h2⟩; exact ⟨d - s, by omega, by omega⟩

theorem dateRange_length (s e : Nat) : (dateRange s e).length = e + 1 - s := by
  simp [dateRange]

theorem dateRange_pairwise (s e : Nat) : (dateRange s e).Pairwise (· < ·) := by
  exact (List.pairwise_lt_range _).map _ fun a b h => by omega

theorem dateRange_ne_nil {s e : Nat} (h : s ≤ e) : dateRange s e ≠ [] := by
  intro hnil
  have := dateRange_length s e
  rw [hnil] at this
  simp at this
  omega

/-- Unfolding of `permutations` on an all-valid round-trip call on which
neither enumeration loop overflows. -/
theorem permutations_valid_rt (s e rs re : Nat) (mi ma : Int)
    (he : ¬(s ≤ e ∧ maxOrdinal ≤ e)) (hre : ¬(rs ≤ re ∧ maxOrdinal ≤ re)) :
    permutations (.valid s) (.valid e) (some (.valid rs)) (some (.valid re)) mi ma =
      .ok ((dateRange s e).flatMap fun dep =>
        if (dateRange rs re).isEmpty then [{ departure_date := dep, return_date := none }]
        else (dateRange rs re).filterMap fun ret =>
          if dep < ret then
            if mi ≤ (ret : Int) - (dep : Int) ∧ (ret : Int) - (dep : Int) ≤ ma then
              some { departure_date := dep, return_date := some ret }
            else none
          else none) := by
  simp [permutations, DateStr.strptime, truthy, dateRangeLoop, he, hre]

/-- Unfolding of `permutations` on a valid departure-only call on which the
departure loop does not overflow. -/
theorem permutations_valid_ow (s e : Nat) (mi ma : Int)
    (he : ¬(s ≤ e ∧ maxOrdinal ≤ e)) :
    permutations (.valid s) (.valid e) none none mi ma =
      .ok ((dateRange s e).map fun d => { departure_date := d, return_date := none }) := by
  simp [permutations, DateStr.strptime, truthy, dateRangeLoop, he, ← List.map_eq_flatMap]

/-- Soundness of the round-trip expansion: every emitted record is a
round trip whose dates obey the strict-order and trip-length constraints. -/
theorem rt_sound {s e rs re : Nat} {mi ma : Int} (hre : rs ≤ re) {p : DatePair}
    (hp : p ∈ (dateRange s e).flatMap fun dep =>
      if (dateRange rs re).isEmpty then [{ departure_date := dep, return_date := none }]
      else (dateRange rs re).filterMap fun ret =>
        if dep < ret then
          if mi ≤ (ret : Int) - (dep : Int) ∧ (ret : Int) - (dep : Int) ≤ ma then
            some { departure_date := dep, return_date := some ret }
          else none
        else none) :
    ∃ r, p.return_date = some r ∧ p.departure_date ∈ dateRange s e ∧ r ∈ dateRange rs re ∧
      p.departure_date < r ∧
      mi ≤ (r : Int) - (p.departure_date : Int) ∧ (r : Int) - (p.departure_date : Int) ≤ ma := by
  rcases List.mem_flatMap.mp hp with ⟨dep, hdep, hmem⟩
  rw [if_neg (by simp [List.isEmpty_iff, dateRange_ne_nil hre])] at hmem
  rcases List.mem_filterMap.mp hmem with ⟨ret, hret, heq⟩
  by_cases hlt : dep < ret
  · rw [if_pos hlt] at heq
    by_cases hdays : mi ≤ (ret : Int) - (dep : Int) ∧ (ret : Int) - (dep : Int) ≤ ma
    · rw [if_pos hdays] at heq
      cases heq
      exact ⟨ret, rfl, hdep, hret, hlt, hdays.1, hdays.2⟩
    · rw [if_neg hdays] at heq; cases heq
  · rw [if_neg hlt] at heq; cases heq

/-- Exhaustiveness of the round-trip expansion: every candidate pair that
meets the constraints is emitted. -/
theorem rt_exhaustive {s e rs re : Nat} {mi ma : Int} {d r : Nat}
    (hd : d ∈ dateRange s e) (hr : r ∈ dateRange rs re) (hlt : d < r)
    (hmin : mi ≤ (r : Int) - (d : Int)) (hmax : (r : Int) - (d : Int) ≤ ma) :
    ({ departure_date := d, return_date := some r } : DatePair) ∈
      (dateRange s e).flatMap fun dep =>
        if (dateRange rs re).isEmpty then [{ departure_date := dep, return_date := none }]
        else (dateRange rs re).filterMap fun ret =>
          if dep < ret then
            if mi ≤ (ret : Int) - (dep : Int) ∧ (ret : Int) - (dep : Int) ≤ ma then
              some { departure_date := dep, return_date := some ret }
            else none
          else none := by
  refine List.mem_flatMap.mpr ⟨d, hd, ?_⟩
  rw [if_neg (by simp [List.isEmpty_iff, List.ne_nil_of_mem hr])]
  exact List.mem_filterMap.mpr ⟨r, hr, by rw [if_pos hlt, if_pos ⟨hmin, hmax⟩]⟩

/-- C1 counterexample: departures 9999-12-26..9999-12-26, returns
9999-12-31..9999-12-31, bounds 1..7 — the pair (9999-12-26, 9999-12-31) is
strictly ordered with a 5-day trip length, yet the return loop's increment
past `datetime.max` raises `OverflowError` and the call returns the error
payload, so the qualifying pair appears in no result. -/
theorem permutations_overflow_counterexample :
    permutations (.valid (maxOrdinal - 5)) (.valid (maxOrdinal - 5))
      (some (.valid maxOrdinal)) (some (.valid maxOrdinal)) 1 7 = PermResult.error ∧
    maxOrdinal - 5 < maxOrdinal ∧
    (1 : Int) ≤ (maxOrdinal : Int) - ((maxOrdinal - 5 : Nat) : Int) ∧
    (maxOrdinal : Int) - ((maxOrdinal - 5 : Nat) : Int) ≤ 7 := by
  exact ⟨by decide, by decide, by decide, by decide⟩

/-- C1 amended: on valid departure and return ranges of four-digit-year dates
that end before 9999-12-31 (so that neither enumeration loop overflows
`datetime.max` and the format/parse round trip is exact), every emitted pair
satisfies `departure < return` and
`min_days ≤ (return − departure).days ≤ max_days`, and every pair of the
cartesian product of the two candidate ranges that satisfies both constraints
is emitted (soundness and exhaustiveness). -/
theorem permutations_sound_exhaustive (s e rs re : Nat) (mi ma : Int)
    (_hs4 : minOrdinal ≤ s) (_hd : s ≤ e) (he : e < maxOrdinal)
    (_hrs4 : minOrdinal ≤ rs) (hr : rs ≤ re) (hre : re < maxOrdinal) :
    ∃ l, permutations (.valid s) (.valid e) (some (.valid rs)) (some (.valid re)) mi ma =
        PermResult.ok l ∧
      (∀ p ∈ l, ∃ r, p.return_date = some r ∧ p.departure_date < r ∧
        mi ≤ (r : Int) - (p.departure_date : Int) ∧ (r : Int) - (p.departure_date : Int) ≤ ma) ∧
      (∀ d r, d ∈ dateRange s e → r ∈ dateRange rs re → d < r →
        mi ≤ (r : Int) - (d : Int) → (r : Int) - (d : Int) ≤ ma →
        ({ departure_date := d, return_date := some r } : DatePair) ∈ l) := by
  refine ⟨_, permutations_valid_rt s e rs re mi ma (by omega) (by omega), ?_, ?_⟩
  · intro p hp
    rcases rt_sound hr hp with ⟨r, h1, _, _, h4, h5, h6⟩
    exact ⟨r, h1, h4, h5, h6⟩
  · intro d r hd' hr' hlt hmin hmax
    exact rt_exhaustive hd' hr' hlt hmin hmax

theorem permutations_sound_exhaustive_witness :
    ∃ l, permutations (.valid 739403) (.valid 739404)
        (some (.valid 739407)) (some (.valid 739408)) 3 5 = PermResult.ok l ∧
      (∀ p ∈ l, ∃ r, p.return_date = some r ∧ p.departure_date < r ∧
        3 ≤ (r : Int) - (p.departure_date : Int) ∧ (r : Int) - (p.departure_date : Int) ≤ 5) ∧
      (∀ d r, d ∈ dateRange 739403 739404 → r ∈ dateRange 739407 739408 → d < r →
        3 ≤ (r : Int) - (d : Int) → (r : Int) - (d : Int) ≤ 5 →
        ({ departure_date := d, return_date := some r } : DatePair) ∈ l) :=
  permutations_sound_exhaustive 739403 739404 739407 739408 3 5
    (by decide) (by decide) (by decide) (by decide) (by decide) (by decide)

/-- C2 counterexample: the one-day departure range 9999-12-31..9999-12-31 is
valid, yet the departure loop's increment past `datetime.max` raises
`OverflowError` and the call returns the error payload instead of the claimed
single one-way pair. -/
theorem permutations_departure_overflow_counterexample :
    permutations (.valid maxOrdinal) (.valid maxOrdinal) none none 1 7 =
      PermResult.error ∧
    permutations (.valid maxOrdinal) (.valid maxOrdinal) none none 1 7 ≠
      PermResult.ok [{ departure_date := maxOrdinal, return_date := none }] := by
  exact ⟨by decide, by decide⟩

/-- C2 amended: a valid departure-only call whose range ends before
9999-12-31 (so the departure loop does not overflow `datetime.max`) returns
exactly `(end − start).days + 1` records, one per calendar day of the range,
each with no return date, in strictly ascending departure order. -/
theorem permutations_departure_only_shape (s e : Nat) (mi ma : Int)
    (h : s ≤ e) (hmax : e < maxOrdinal) :
    ∃ l, permutations (.valid s) (.valid e) none none mi ma = PermResult.ok l ∧
      l.length = (e - s) + 1 ∧
      (∀ p ∈ l, p.return_date = none) ∧
      (l.map DatePair.departure_date).Pairwise (· < ·) ∧
      ∀ d, s ≤ d → d ≤ e →
        ({ departure_date := d, return_date := none } : DatePair) ∈ l := by
  refine ⟨_, permutations_valid_ow s e mi ma (by omega), ?_, ?_, ?_, ?_⟩
  · rw [List.length_map, dateRange_length]; omega
  · intro p hp
    rcases List.mem_map.mp hp with ⟨d, _, rfl⟩
    rfl
  · rw [List.map_map]
    have hcomp : (DatePair.departure_date ∘
        fun d => ({ departure_date := d, return_date := none } : DatePair)) = id := rfl
    rw [hcomp, List.map_id]
    exact dateRange_pairwise s e
  · intro d h1 h2
    exact List.mem_map.mpr ⟨d, mem_dateRange.mpr ⟨h1, h2⟩, rfl⟩

theorem permutations_departure_only_shape_witness :
    ∃ l, permutations (.valid 739412) (.valid 739412) none none 1 7 = PermResult.ok l ∧
      l.length = (739412 - 739412) + 1 ∧
      (∀ p ∈ l, p.return_date = none) ∧
      (l.map DatePair.departure_date).Pairwise (· < ·) ∧
      ∀ d, 739412 ≤ d → d ≤ 739412 →
        ({ departure_date := d, return_date := none } : DatePair) ∈ l :=
  permutations_departure_only_shape 739412 739412 1 7 (by decide) (by decide)

/-- C8: the generator is total: on every combination of arguments it returns
either a JSON list of date-pair records or a JSON `{"error": ...}` object,
never an unhandled exception (the `except Exception` at line 216 also covers
the `OverflowError` at the `datetime.max` boundary). -/
theorem permutations_total (dds dde : DateStr) (rds rde : Option DateStr)
    (mi ma : Int) :
    (∃ l, permutations dds dde rds rde mi ma = PermResult.ok l) ∨
      permutations dds dde rds rde mi ma = PermResult.error := by
  cases h : permutations dds dde rds rde mi ma with
  | ok l => exact Or.inl ⟨l, rfl⟩
  | error => exact Or.inr rfl

/-- C9 counterexample: departures 9999-12-31..9999-12-30 (reversed, so the
departure list is empty), returns 9999-12-30..9999-12-31 — the return loop
runs regardless of the empty departure list, overflows `datetime.max`, and
the call returns the error payload instead of the claimed empty list. -/
theorem permutations_reversed_overflow_counterexample :
    permutations (.valid maxOrdinal) (.valid (maxOrdinal - 1))
      (some (.valid (maxOrdinal - 1))) (some (.valid maxOrdinal)) 1 7 =
      PermResult.error ∧
    permutations (.valid maxOrdinal) (.valid (maxOrdinal - 1))
      (some (.valid (maxOrdinal - 1))) (some (.valid maxOrdinal)) 1 7 ≠
      PermResult.ok [] := by
  exact ⟨by decide, by decide⟩

/-- C9 amended: with validly formatted dates, a departure start strictly after
the departure end, and any supplied return range that does not make the return
loop overflow (an ordered return range must end before 9999-12-31), the result
is the empty list of pairs, whatever the day bounds are. -/
theorem permutations_reversed_departure_range_empty (s e : Nat)
    (ors ore : Option Nat) (mi ma : Int) (h : e < s)
    (hov : ∀ r1 r2, ors = some r1 → ore = some r2 → r1 ≤ r2 → r2 < maxOrdinal) :
    permutations (.valid s) (.valid e) (ors.map DateStr.valid) (ore.map DateStr.valid)
      mi ma = PermResult.ok [] := by
  have hde : dateRange s e = [] := by
    unfold dateRange
    rw [show e + 1 - s = 0 by omega]
    rfl
  have hd0 : ¬(s ≤ e ∧ maxOrdinal ≤ e) := by omega
  cases ors with
  | none =>
    cases ore <;> simp [permutations, DateStr.strptime, truthy, dateRangeLoop, hd0, hde]
  | some r1 =>
    cases ore with
    | none => simp [permutations, DateStr.strptime, truthy, dateRangeLoop, hd0, hde]
    | some r2 =>
      have hr0 : ¬(r1 ≤ r2 ∧ maxOrdinal ≤ r2) := by
        rintro ⟨ha, hb⟩
        have := hov r1 r2 rfl rfl ha
        omega
      simp [permutations, DateStr.strptime, truthy, dateRangeLoop, hd0, hr0, hde]

theorem permutations_reversed_departure_range_empty_witness :
    permutations (.valid 739420) (.valid 739403) ((some 739425).map DateStr.valid)
      ((some 739430).map DateStr.valid) (-5) 99 = PermResult.ok [] :=
  permutations_reversed_departure_range_empty 739420 739403 (some 739425) (some 739430)
    (-5) 99 (by decide)
    (by
      intro r1 r2 h1 h2 _
      cases h1
      cases h2
      decide)

/-- C10: a departure-only call ignores `min_days` and `max_days`: two calls
differing only in the day bounds return identical output. -/
theorem permutations_departure_only_ignores_day_bounds (dds dde : DateStr)
    (mi ma mi' ma' : Int) :
    permutations dds dde none none mi ma = permutations dds dde none none mi' ma' := by
  cases dds <;> cases dde <;> rfl

/-- A record produced by the inner filter of the round-trip loop is exactly
the round trip of its enclosing departure and its return candidate. -/
theorem rt_cell_eq {dep ret : Nat} {mi ma : Int} {x : DatePair}
    (hx : x ∈ if dep < ret then
        (if mi ≤ (ret : Int) - (dep : Int) ∧ (ret : Int) - (dep : Int) ≤ ma then
          some { departure_date := dep, return_date := some ret } else none)
      else (none : Option DatePair)) :
    x = { departure_date := dep, return_date := some ret } := by
  split at hx
  · split at hx
    · rw [Option.mem_def] at hx
      exact (Option.some_inj.mp hx).symm
    · simp at hx
  · simp at hx

/-- Every record of one departure's block of the loop carries that departure
date. -/
theorem rt_block_dep {returns : List Nat} {mi ma : Int} {dep : Nat} {x : DatePair}
    (hx : x ∈ if returns.isEmpty then [{ departure_date := dep, return_date := none }]
      else returns.filterMap fun ret =>
        if dep < ret then
          if mi ≤ (ret : Int) - (dep : Int) ∧ (ret : Int) - (dep : Int) ≤ ma then
            some { departure_date := dep, return_date := some ret }
          else none
        else none) :
    x.departure_date = dep := by
  split at hx
  · rw [List.mem_singleton] at hx
    rw [hx]
  · rcases List.mem_filterMap.mp hx with ⟨ret, _, hc⟩
    rw [rt_cell_eq (Option.mem_def.mpr hc)]

/-- The list built by the generator's nested loops is in departure-major,
return-minor order. -/
theorem rt_result_pairwise (s e rs re : Nat) (mi ma : Int) :
    ((dateRange s e).flatMap fun dep =>
      if (dateRange rs re).isEmpty then [{ departure_date := dep, return_date := none }]
      else (dateRange rs re).filterMap fun ret =>
        if dep < ret then
          if mi ≤ (ret : Int) - (dep : Int) ∧ (ret : Int) - (dep : Int) ≤ ma then
            some { departure_date := dep, return_date := some ret }
          else none
        else none).Pairwise depMajorRetMinor := by
  rw [List.pairwise_flatMap]
  constructor
  · intro dep _
    split
    · exact List.pairwise_singleton _ _
    · rw [List.pairwise_filterMap]
      refine (dateRange_pairwise rs re).imp ?_
      intro a b hab x hx y hy
      rw [rt_cell_eq hx, rt_cell_eq hy]
      right
      exact ⟨rfl, by simpa using hab⟩
  · refine (dateRange_pairwise s e).imp ?_
    intro a b hab x hx y hy
    left
    rw [rt_block_dep hx, rt_block_dep hy]
    exact hab

/-- C3: round-trip results are emitted in departure-major, return-minor order,
and the spec's example call (departures 2025-06-01..02, returns
2025-06-05..06, 3..5 days) yields exactly its four pairs in that order. -/
theorem permutations_order_and_example :
    (∀ (s e rs re : Nat) (mi ma : Int) (l : List DatePair),
      permutations (.valid s) (.valid e) (some (.valid rs)) (some (.valid re)) mi ma =
        PermResult.ok l → l.Pairwise depMajorRetMinor) ∧
    permutations (.valid (toordinal 2025 6 1)) (.valid (toordinal 2025 6 2))
        (some (.valid (toordinal 2025 6 5))) (some (.valid (toordinal 2025 6 6))) 3 5 =
      PermResult.ok
        [{ departure_date := toordinal 2025 6 1, return_date := some (toordinal 2025 6 5) },
         { departure_date := toordinal 2025 6 1, return_date := some (toordinal 2025 6 6) },
         { departure_date := toordinal 2025 6 2, return_date := some (toordinal 2025 6 5) },
         { departure_date := toordinal 2025 6 2, return_date := some (toordinal 2025 6 6) }] := by
  constructor
  · intro s e rs re mi ma l hl
    by_cases he : s ≤ e ∧ maxOrdinal ≤ e
    · have herr : permutations (.valid s) (.valid e)
          (some (.valid rs)) (some (.valid re)) mi ma = PermResult.error := by
        simp [permutations, DateStr.strptime, dateRangeLoop, he]
      rw [hl] at herr
      exact absurd herr (by simp)
    · by_cases hre : rs ≤ re ∧ maxOrdinal ≤ re
      · have herr : permutations (.valid s) (.valid e)
            (some (.valid rs)) (some (.valid re)) mi ma = PermResult.error := by
          simp [permutations, DateStr.strptime, truthy, dateRangeLoop, he, hre]
        rw [hl] at herr
        exact absurd herr (by simp)
      · have heq := permutations_valid_rt s e rs re mi ma he hre
        rw [hl] at heq
        injection heq with h
        rw [h]
        exact rt_result_pairwise s e rs re mi ma
  · decide

theorem permutations_order_and_example_witness :
    List.Pairwise depMajorRetMinor
      [{ departure_date := toordinal 2025 6 1, return_date := some (toordinal 2025 6 5) },
       { departure_date := toordinal 2025 6 1, return_date := some (toordinal 2025 6 6) },
       { departure_date := toordinal 2025 6 2, return_date := some (toordinal 2025 6 5) },
       { departure_date := toordinal 2025 6 2, return_date := some (toordinal 2025 6 6) }] :=
  permutations_order_and_example.1 (toordinal 2025 6 1) (toordinal 2025 6 2)
    (toordinal 2025 6 5) (toordinal 2025 6 6) 3 5 _ (by decide)

/-- C4 counterexample: the supplied return start `"not-a-date"` is malformed,
but with the return end absent it is never parsed — the call returns a normal
one-way list, not an error payload. -/
theorem permutations_malformed_counterexample :
    permutations (.valid 739403) (.valid 739403) (some .malformed) none 1 7 =
      PermResult.ok [{ departure_date := 739403, return_date := none }] ∧
    permutations (.valid 739403) (.valid 739403) (some .malformed) none 1 7 ≠
      PermResult.error := by
  exact ⟨by decide, by decide⟩

/-- C4 amended: every date string the function actually parses — the two
departure bounds always, the return bounds exactly when both are truthy —
yields, when malformed, the structured `{"error": ...}` payload (and never an
unhandled exception); a malformed return bound whose counterpart is absent or
empty is never parsed. -/
theorem permutations_parsed_malformed_error (dds dde : DateStr)
    (rds rde : Option DateStr) (mi ma : Int)
    (h : dds.strptime = none ∨ dde.strptime = none ∨
      ((truthy rds && truthy rde) = true ∧
        ((rds.getD .empty).strptime = none ∨ (rde.getD .empty).strptime = none))) :
    permutations dds dde rds rde mi ma = PermResult.error := by
  cases dds with
  | malformed => rfl
  | empty => rfl
  | valid a =>
    cases dde with
    | malformed => rfl
    | empty => rfl
    | valid b =>
      rcases h with h | h | ⟨ht, h | h⟩
      · simp [DateStr.strptime] at h
      · simp [DateStr.strptime] at h
      · cases hl : dateRangeLoop a b <;>
          simp [permutations, ht, h, hl,
            show ∀ n, DateStr.strptime (DateStr.valid n) = some n from fun n => rfl]
      · cases hl : dateRangeLoop a b <;>
          cases hrs : DateStr.strptime (rds.getD .empty) <;>
            simp [permutations, ht, h, hl, hrs,
              show ∀ n, DateStr.strptime (DateStr.valid n) = some n from fun n => rfl]

theorem permutations_parsed_malformed_error_witness :
    permutations .malformed (.valid 739403) none none 1 7 = PermResult.error :=
  permutations_parsed_malformed_error .malformed (.valid 739403) none none 1 7
    (Or.inl rfl)

/-- C5 counterexample: a return start supplied without a return end produces a
normal one-way result, not a validation error. -/
theorem permutations_one_sided_return_counterexample :
    permutations (.valid 739403) (.valid 739404) (some (.valid 739407)) none 1 7 =
      PermResult.ok [{ departure_date := 739403, return_date := none },
                     { departure_date := 739404, return_date := none }] ∧
    permutations (.valid 739403) (.valid 739404) (some (.valid 739407)) none 1 7 ≠
      PermResult.error := by
  exact ⟨by decide, by decide⟩

/-- C5 amended: a return range with at most one truthy bound is silently
ignored — the call behaves exactly like the corresponding departure-only call
(one-way records, a normal non-error result); no validation error occurs. -/
theorem permutations_one_sided_return_ignored (dds dde : DateStr)
    (rds rde : Option DateStr) (mi ma : Int)
    (h : truthy rds = false ∨ truthy rde = false) :
    permutations dds dde rds rde mi ma = permutations dds dde none none mi ma := by
  cases dds <;> cases dde <;> rcases h with h | h <;>
    simp [permutations, DateStr.strptime, h,
      show truthy (none : Option DateStr) = false from rfl]

theorem permutations_one_sided_return_ignored_witness :
    permutations (.valid 739403) (.valid 739404) (some (.valid 739407)) none 2 9 =
      permutations (.valid 739403) (.valid 739404) none none 2 9 :=
  permutations_one_sided_return_ignored (.valid 739403) (.valid 739404)
    (some (.valid 739407)) none 2 9 (Or.inr rfl)

/-- C6 counterexample: the valid ranges 9999-12-26..9999-12-27 (departures)
and 9999-12-30..9999-12-31 (returns) with `min_days = 5 > max_days = 2` do
not produce the empty list: the return loop overflows `datetime.max` before
the filter ever runs and the call returns the error payload. -/
theorem permutations_min_gt_max_overflow_counterexample :
    permutations (.valid (maxOrdinal - 5)) (.valid (maxOrdinal - 4))
      (some (.valid (maxOrdinal - 1))) (some (.valid maxOrdinal)) 5 2 =
      PermResult.error ∧
    permutations (.valid (maxOrdinal - 5)) (.valid (maxOrdinal - 4))
      (some (.valid (maxOrdinal - 1))) (some (.valid maxOrdinal)) 5 2 ≠
      PermResult.ok [] := by
  exact ⟨by decide, by decide⟩

/-- C6 amended: valid departure and return ranges of four-digit-year dates
ending before 9999-12-31 (so the loops do not overflow `datetime.max` and the
re-parse at line 209 succeeds) with `min_days > max_days` are accepted without
a validation error, and the result is the empty list. -/
theorem permutations_min_gt_max_empty (s e rs re : Nat) (mi ma : Int)
    (_hs4 : minOrdinal ≤ s) (_hd : s ≤ e) (he : e < maxOrdinal)
    (_hrs4 : minOrdinal ≤ rs) (hr : rs ≤ re) (hre : re < maxOrdinal)
    (hm : ma < mi) :
    permutations (.valid s) (.valid e) (some (.valid rs)) (some (.valid re)) mi ma =
      PermResult.ok [] := by
  rw [permutations_valid_rt s e rs re mi ma (by omega) (by omega)]
  congr 1
  rw [List.flatMap_eq_nil_iff]
  intro dep _
  rw [if_neg (by simp [List.isEmpty_iff, dateRange_ne_nil hr])]
  rw [List.filterMap_eq_nil_iff]
  intro ret _
  by_cases hlt : dep < ret
  · rw [if_pos hlt, if_neg (by rintro ⟨h1, h2⟩; omega)]
  · rw [if_neg hlt]

theorem permutations_min_gt_max_empty_witness :
    permutations (.valid 739403) (.valid 739404) (some (.valid 739407))
      (some (.valid 739408)) 5 2 = PermResult.ok [] :=
  permutations_min_gt_max_empty 739403 739404 739407 739408 5 2
    (by decide) (by decide) (by decide) (by decide) (by decide) (by decide) (by decide)

/-- An `amadeus.ResponseError` raised by the SDK; only the text that `str(e)`
produces is modelled. -/
structure ResponseError where
  msg : String
deriving DecidableEq

/-- The JSON string a tool adapter returns: `payload d` abstracts
`json.dumps(response.data)`, `errorObj m` abstracts `json.dumps({"error": m})`. -/
inductive ToolResult where
  | payload (data : String)
  | errorObj (msg : String)
deriving DecidableEq

/-- The parameter record built by `search_flights` for
`amadeus.shopping.flight_offers_search.get` (`main.py`, lines 116-131):
`returnDate` is only included when a return date is given; `maxPrice` is set
from `max_price` (the conditional re-assignment stores the same value). -/
structure FlightSearchParams where
  originLocationCode : String
  destinationLocationCode : String
  departureDate : String
  adults : Int
  maxPrice : Option Int
  currencyCode : String
  maxResults : Int
  nonStop : String
  returnDate : Option String
deriving DecidableEq

/-- Request-parameter assembly of `search_flights`. -/
def buildFlightParams (origin destination departure_date : String)
    (return_date : Option String) (adults : Int) (max_price : Option Int)
    (currency : String) (non_stop_only : String) (max_results : Int) :
    FlightSearchParams :=
  { originLocationCode := origin
    destinationLocationCode := destination
    departureDate := departure_date
    adults := adults
    maxPrice := max_price
    currencyCode := currency
    maxResults := max_results
    nonStop := non_stop_only
    returnDate := return_date }

/-- `search_locations` (`main.py`, lines 67-83): calls
`amadeus.reference_data.locations.get` (passed in as `up`) and dumps the data;
a raised `ResponseError` becomes the tagged error object. -/
def search_locations (up : String → Except ResponseError String)
    (keyword : String) : ToolResult :=
  match up keyword with
  | .ok data => .payload data
  | .error e => .errorObj e.msg

/-- `search_flights` (`main.py`, lines 85-139): builds the request parameters,
calls `amadeus.shopping.flight_offers_search.get` (passed in as `up`) and
dumps the data; a raised `ResponseError` becomes the tagged error object. -/
def search_flights (up : FlightSearchParams → Except ResponseError String)
    (origin destination departure_date : String)
    (return_date : Option String := none) (adults : Int := 1)
    (max_price : Option Int := some 100000) (currency : String := "EUR")
    (non_stop_only : String := "false") (max_results : Int := 10) : ToolResult :=
  match up (buildFlightParams origin destination departure_date return_date
      adults max_price currency non_stop_only max_results) with
  | .ok data => .payload data
  | .error e => .errorObj e.msg

/-- `search_hotels` (`main.py`, lines 141-156): calls
`amadeus.reference_data.locations.hotels.by_city.get` (passed in as `up`) and
dumps the data; a raised `ResponseError` becomes the tagged error object. -/
def search_hotels (up : String → Except ResponseError String)
    (city : String) : ToolResult :=
  match up city with
  | .ok data => .payload data
  | .error e => .errorObj e.msg

/-- C7: whenever the upstream provider call fails with a `ResponseError`, each
travel tool adapter returns the JSON object `{"error": str(e)}` as its normal
result instead of raising. -/
theorem adapters_provider_error_tagged (e : ResponseError) :
    (∀ (up : String → Except ResponseError String) (keyword : String),
      up keyword = .error e → search_locations up keyword = .errorObj e.msg) ∧
    (∀ (up : FlightSearchParams → Except ResponseError String)
      (origin destination departure_date : String) (return_date : Option String)
      (adults : Int) (max_price : Option Int) (currency non_stop_only : String)
      (max_results : Int),
      up (buildFlightParams origin destination departure_date return_date
        adults max_price currency non_stop_only max_results) = .error e →
      search_flights up origin destination departure_date return_date adults
        max_price currency non_stop_only max_results = .errorObj e.msg) ∧
    (∀ (up : String → Except ResponseError String) (city : String),
      up city = .error e → search_hotels up city = .errorObj e.msg) := by
  refine ⟨fun up keyword h => ?_, fun up o d dd rd a mp c ns mr h => ?_,
    fun up city h => ?_⟩
  · rw [search_locations, h]
  · rw [search_flights, h]
  · rw [search_hotels, h]

theorem adapters_provider_error_tagged_witness :
    search_locations (fun _ => Except.error ⟨"error 400"⟩) "BKK" =
      ToolResult.errorObj "error 400" ∧
    search_flights (fun _ => Except.error ⟨"error 400"⟩) "BOS" "NYC" "2025-06-01"
      none 1 (some 100000) "EUR" "false" 10 = ToolResult.errorObj "error 400" ∧
    search_hotels (fun _ => Except.error ⟨"error 400"⟩) "PAR" =
      ToolResult.errorObj "error 400" :=
  ⟨(adapters_provider_error_tagged ⟨"error 400"⟩).1 (fun _ => Except.error ⟨"error 400"⟩)
      "BKK" rfl,
   (adapters_provider_error_tagged ⟨"error 400"⟩).2.1 (fun _ => Except.error ⟨"error 400"⟩)
      "BOS" "NYC" "2025-06-01" none 1 (some 100000) "EUR" "false" 10 rfl,
   (adapters_provider_error_tagged ⟨"error 400"⟩).2.2 (fun _ => Except.error ⟨"error 400"⟩)
      "PAR" rfl⟩
